import Mathlib

/-!
Verification of the OLYMPUS 2.0 request-authorization layer
(`python/auth/core.py`, `python/auth/permissions.py`, `python/auth/rate_limit.py`)
against its natural-language specification.

The Python modules are embedded shallowly:
* pydantic models become structures with the same fields and defaults;
* each `raise HTTPException(...)` site becomes one constructor of `AuthError`,
  carrying the status code and `code` field of its detail dict;
* FastAPI dependency factories (`require_permission(...)` returning an inner
  checker) are embedded as the inner checker itself, a pure function from the
  extracted `AuthUser` to `Except AuthError AuthUser`;
* the rate limiter's mutable `requests` dict becomes an explicit state value
  of type `String → List ℚ` threaded through `check`;
* Python float timestamps (`time.time()`) are modelled as rationals.
-/

set_option linter.unusedVariables false

namespace Olympus

/-- Equality of `Except` values is decidable when both components are. -/
instance {ε α : Type} [DecidableEq ε] [DecidableEq α] : DecidableEq (Except ε α) := fun x y =>
  match x, y with
  | .ok v, .ok w => if h : v = w then .isTrue (by simp [h]) else .isFalse (by simp [h])
  | .error d, .error e => if h : d = e then .isTrue (by simp [h]) else .isFalse (by simp [h])
  | .ok _, .error _ => .isFalse (by simp)
  | .error _, .ok _ => .isFalse (by simp)

/-- Python truthiness of an optional string: `None` and `""` are falsy
(`if not user_role:` style tests in the source), every other string is truthy. -/
def pyTruthy : Option String → Bool
  | none => false
  | some s => !(s == "")

/-- `OlympusClaims` (core.py): custom OLYMPUS JWT claims, with the pydantic
field defaults of the source. -/
structure OlympusClaims where
  tenant_id : Option String := none
  tenant_role : Option String := none
  tenant_slug : Option String := none
  permissions : List String := []
  plan_tier : Option String := none
  is_platform_admin : Bool := false
deriving DecidableEq

/-- `AuthUser` (core.py): authenticated user extracted from a verified JWT. -/
structure AuthUser where
  id : String := ""
  email : String := ""
  email_verified : Bool := false
  claims : OlympusClaims := {}
deriving DecidableEq

/-- One constructor per `raise HTTPException(...)` site in core.py and
permissions.py, keeping the data each detail dict carries. -/
inductive AuthError where
  | configError
  | tokenExpired
  | tokenInvalid (msg : String)
  | permissionDenied (required : String)
  | anyPermissionDenied (required_any : List String)
  | noTenantRole (required_role : String)
  | insufficientRole (required_role current_role : String)
  | tenantRequired
  | emailNotVerified
  | platformAdminRequired
deriving DecidableEq

/-- HTTP status code attached to each raise site in the source. -/
def AuthError.status : AuthError → Nat
  | .configError => 500
  | .tokenExpired => 401
  | .tokenInvalid _ => 401
  | _ => 403

/-- The `"code"` field of the detail dict at each raise site
(`configError`'s detail is a bare string, so it has no code). -/
def AuthError.code : AuthError → Option String
  | .configError => none
  | .tokenExpired => some "AUTH_105"
  | .tokenInvalid _ => some "AUTH_106"
  | .permissionDenied _ => some "AUTH_301"
  | .anyPermissionDenied _ => some "AUTH_301"
  | .noTenantRole _ => some "AUTH_301"
  | .insufficientRole _ _ => some "AUTH_301"
  | .tenantRequired => some "AUTH_302"
  | .emailNotVerified => some "AUTH_102"
  | .platformAdminRequired => some "AUTH_301"

/-- The `ROLE_HIERARCHY` dict of permissions.py, as a partial map. -/
def ROLE_HIERARCHY : String → Option Int
  | "owner" => some 100
  | "admin" => some 75
  | "developer" => some 50
  | "viewer" => some 25
  | _ => none

/-- `ROLE_HIERARCHY.get(role, 0)`: unknown roles rank 0. -/
def roleRank (role : String) : Int := (ROLE_HIERARCHY role).getD 0

/-- Rank of an optional role exactly as the spec reads it:
unknown or absent roles rank 0. -/
def rankOpt (role : Option String) : Int := (role.map roleRank).getD 0

/-- permissions.py `require_permission`: the inner `check_permission`
dependency applied to an extracted user. -/
def require_permission (permission : String) (user : AuthUser) : Except AuthError AuthUser :=
  if "*" ∈ user.claims.permissions then .ok user
  else if permission ∉ user.claims.permissions then .error (.permissionDenied permission)
  else .ok user

/-- permissions.py `require_any_permission`: the inner `check_permissions`
dependency applied to an extracted user. -/
def require_any_permission (permissions : List String) (user : AuthUser) :
    Except AuthError AuthUser :=
  if "*" ∈ user.claims.permissions then .ok user
  else
    let has_any := permissions.any (fun p => decide (p ∈ user.claims.permissions))
    if !has_any then .error (.anyPermissionDenied permissions)
    else .ok user

/-- permissions.py `require_role`: the inner `check_role` dependency applied
to an extracted user.  `if not user_role:` is Python truthiness. -/
def require_role (min_role : String) (user : AuthUser) : Except AuthError AuthUser :=
  let user_role := user.claims.tenant_role
  if !pyTruthy user_role then .error (.noTenantRole min_role)
  else
    let r := user_role.getD ""
    if roleRank r < roleRank min_role then .error (.insufficientRole min_role r)
    else .ok user

/-- permissions.py `require_tenant`: the inner `check_tenant` dependency. -/
def require_tenant (user : AuthUser) : Except AuthError AuthUser :=
  if !pyTruthy user.claims.tenant_id then .error .tenantRequired
  else .ok user

/-- permissions.py `require_verified_email`. -/
def require_verified_email (user : AuthUser) : Except AuthError AuthUser :=
  if !user.email_verified then .error .emailNotVerified
  else .ok user

/-- permissions.py `require_platform_admin`. -/
def require_platform_admin (user : AuthUser) : Except AuthError AuthUser :=
  if !user.claims.is_platform_admin then .error .platformAdminRequired
  else .ok user

/-- The nested `"olympus"` namespace of a token payload: a dict whose keys
may each be missing (`olympus.get(...)` in core.py). -/
structure OlympusDict where
  tenant_id : Option String := none
  tenant_role : Option String := none
  tenant_slug : Option String := none
  permissions : Option (List String) := none
  plan_tier : Option String := none
  is_platform_admin : Option Bool := none
deriving DecidableEq

/-- A decoded token payload dict: standard claims plus the optional
`"olympus"` namespace (each key may be missing). -/
structure TokenPayload where
  sub : Option String := none
  email : Option String := none
  email_verified : Option Bool := none
  olympus : Option OlympusDict := none
deriving DecidableEq

/-- Modelled from the spec: the `jwt` (PyJWT) library called by `decode_jwt`
is a third-party dependency whose code is not under src.  A raw bearer token
is abstracted by the validation-relevant facts the spec names in §4.1 and §6:
well-formedness, the algorithm it asserts, the secret it was signed with,
its expiry claim, its audience claim, and the payload it decodes to. -/
structure JwtToken where
  wellFormed : Bool := true
  alg : String := "HS256"
  signedWith : String := ""
  exp : Option Int := none
  aud : Option String := some "authenticated"
  payload : TokenPayload := {}
deriving DecidableEq

/-- The token's expiry claim is in the past at time `now`. -/
def JwtToken.isExpired (token : JwtToken) (now : Int) : Bool :=
  match token.exp with
  | some e => decide (e < now)
  | none => false

/-- Errors of the PyJWT library that core.py catches. -/
inductive JwtLibError where
  | expiredSignature
  | invalidToken (msg : String)
deriving DecidableEq

/-- Modelled from the spec: `jwt.decode(token, secret, algorithms=["HS256"],
audience="authenticated")` per §4.1 — an expired expiry claim raises
`ExpiredSignatureError`; any other validation failure (malformed structure,
algorithm not in the allow-list, bad signature, audience different from the
literal `"authenticated"`) raises `InvalidTokenError`; otherwise the decoded
payload is returned. -/
def jwtDecode (token : JwtToken) (secret : String) (now : Int) :
    Except JwtLibError TokenPayload :=
  if token.isExpired now then .error .expiredSignature
  else if !token.wellFormed then .error (.invalidToken "malformed structure")
  else if token.alg ≠ "HS256" then .error (.invalidToken "algorithm not allowed")
  else if token.signedWith ≠ secret then .error (.invalidToken "signature verification failed")
  else if token.aud ≠ some "authenticated" then .error (.invalidToken "audience mismatch")
  else .ok token.payload

/-- core.py `decode_jwt`.  `SUPABASE_JWT_SECRET` defaults to `""` when the
environment variable is unset, and `if not SUPABASE_JWT_SECRET:` is the
empty-string test. -/
def decode_jwt (SUPABASE_JWT_SECRET : String) (token : JwtToken) (now : Int) :
    Except AuthError TokenPayload :=
  if SUPABASE_JWT_SECRET = "" then .error .configError
  else
    match jwtDecode token SUPABASE_JWT_SECRET now with
    | .ok payload => .ok payload
    | .error .expiredSignature => .error .tokenExpired
    | .error (.invalidToken msg) => .error (.tokenInvalid ("Invalid token: " ++ msg))

/-- The claims-extraction step of core.py `get_current_user` (lines 77-92):
build `OlympusClaims` from `payload.get("olympus", {})` and the `AuthUser`
from the standard claims, with each `.get` default of the source. -/
def extract_user (payload : TokenPayload) : AuthUser :=
  let olympus := payload.olympus.getD {}
  let claims : OlympusClaims :=
    { tenant_id := olympus.tenant_id
      tenant_role := olympus.tenant_role
      tenant_slug := olympus.tenant_slug
      permissions := olympus.permissions.getD []
      plan_tier := olympus.plan_tier
      is_platform_admin := olympus.is_platform_admin.getD false }
  { id := payload.sub.getD ""
    email := payload.email.getD ""
    email_verified := payload.email_verified.getD false
    claims := claims }

/-- core.py `get_current_user`: decode the bearer token, then extract. -/
def get_current_user (secret : String) (now : Int) (token : JwtToken) :
    Except AuthError AuthUser :=
  match decode_jwt secret token now with
  | .error e => .error e
  | .ok payload => .ok (extract_user payload)

/-- core.py `get_optional_user`: `None` without credentials, and every
`HTTPException` from `get_current_user` is caught and turned into `None`. -/
def get_optional_user (secret : String) (now : Int) (credentials : Option JwtToken) :
    Option AuthUser :=
  match credentials with
  | none => none
  | some c =>
    match get_current_user secret now c with
    | .ok u => some u
    | .error _ => none

/-- rate_limit.py: the slice of a FastAPI `Request` that `_get_key` reads —
two headers and the client address (`none` models `request.client is None`). -/
structure Request where
  x_user_id : Option String := none
  x_forwarded_for : Option String := none
  client_host : Option String := none
deriving DecidableEq

/-- Python `s.split(",")[0]`: the characters before the first comma
(the whole string when there is none). -/
def splitFirstComma (s : String) : String :=
  ⟨s.data.takeWhile (fun c => c ≠ ',')⟩

/-- Python `str.strip()`: drop leading and trailing whitespace. -/
def pyStrip (s : String) : String :=
  ⟨((s.data.dropWhile Char.isWhitespace).reverse.dropWhile Char.isWhitespace).reverse⟩

/-- rate_limit.py `RateLimiter._get_key`: user id header if truthy, else the
first forwarded address, else the client address (`"unknown"` without one). -/
def RateLimiter.get_key (request : Request) (pre : String) : String :=
  if pyTruthy request.x_user_id then
    pre ++ ":user:" ++ request.x_user_id.getD ""
  else
    let ip :=
      if pyTruthy request.x_forwarded_for then
        pyStrip (splitFirstComma (request.x_forwarded_for.getD ""))
      else
        match request.client_host with
        | some h => h
        | none => "unknown"
    pre ++ ":ip:" ++ ip

/-- The state of `RateLimiter.requests`: a `defaultdict(list)` from key to
the recorded timestamps (seconds, rationals standing for Python floats). -/
abbrev RLState := String → List ℚ

/-- The list-comprehension filter of `RateLimiter._cleanup`:
keep the timestamps `t` with `t > now - window_ms / 1000`. -/
def cleanupList (ts : List ℚ) (window_ms now : ℚ) : List ℚ :=
  ts.filter (fun t => decide (now - window_ms / 1000 < t))

/-- rate_limit.py `RateLimiter._cleanup`: write the pruned list back. -/
def RateLimiter.cleanup (requests : RLState) (key : String) (window_ms now : ℚ) : RLState :=
  Function.update requests key (cleanupList (requests key) window_ms now)

/-- rate_limit.py `RateLimiter.check`, with the mutable `self.requests` dict
threaded explicitly and the two `time.time()` readings identified as `now`.
Returns the `(allowed, remaining, reset_at)` tuple and the next state. -/
def RateLimiter.check (requests : RLState) (request : Request) (window_ms : ℚ)
    (max_requests : ℤ) (pre : String) (now : ℚ) : (Bool × ℤ × ℚ) × RLState :=
  let key := RateLimiter.get_key request pre
  let requests' := RateLimiter.cleanup requests key window_ms now
  let count : ℤ := (requests' key).length
  let remaining : ℤ := max 0 (max_requests - count - 1)
  let reset_at : ℚ := now + window_ms / 1000
  if count ≥ max_requests then ((false, 0, reset_at), requests')
  else ((true, remaining, reset_at), Function.update requests' key (requests' key ++ [now]))

/-- Run `RateLimiter.check` once per attempt time, threading the state, and
collect the returned `(allowed, remaining, reset_at)` tuples. -/
def checkSeq (requests : RLState) (request : Request) (window_ms : ℚ)
    (max_requests : ℤ) (pre : String) : List ℚ → List (Bool × ℤ × ℚ)
  | [] => []
  | now :: rest =>
    let r := RateLimiter.check requests request window_ms max_requests pre now
    r.1 :: checkSeq r.2 request window_ms max_requests pre rest

/-- The identity part of a rate-limit key: everything `_get_key` appends
after the scope. -/
def keyTail (request : Request) : String :=
  if pyTruthy request.x_user_id then
    ":user:" ++ request.x_user_id.getD ""
  else
    ":ip:" ++
      (if pyTruthy request.x_forwarded_for then
        pyStrip (splitFirstComma (request.x_forwarded_for.getD ""))
      else
        match request.client_host with
        | some h => h
        | none => "unknown")

/-! ### Concrete values used to exercise the claims -/

/-- Concrete wildcard context exercising C1: wildcard present, viewer role,
no tenant id. -/
def wildcardUser : AuthUser :=
  { id := "u-wc", claims := { permissions := ["*"], tenant_role := some "viewer" } }

/-- A context with no tenant role (the extraction default). -/
def noRoleUser : AuthUser := { id := "u-norole", email := "n@example.com" }

/-- An owner context exercising C2. -/
def ownerUser : AuthUser :=
  { id := "u-owner", claims := { tenant_id := some "t1", tenant_role := some "owner" } }

/-- A context whose `tenant_id` is present but empty. -/
def emptyTenantUser : AuthUser := { id := "u-et", claims := { tenant_id := some "" } }

/-- A token signed with `"s3cret"` whose expiry claim is the instant 100. -/
def expiredToken : JwtToken := { signedWith := "s3cret", exp := some 100 }

/-- A well-formed unexpired token signed with `"s3cret"`. -/
def goodToken : JwtToken := { signedWith := "s3cret" }

/-- A verified payload carrying the given permission list. -/
def permPayload (ps : List String) : TokenPayload :=
  { sub := some "user-1", olympus := some { permissions := some ps } }

/-- A context with duplicated, unordered permissions. -/
def permUser1 : AuthUser := { id := "u8", claims := { permissions := ["a", "b", "a"] } }

/-- The same permission set as `permUser1`, deduplicated and reordered. -/
def permUser2 : AuthUser := { id := "u8", claims := { permissions := ["b", "a"] } }

/-- A request carrying only a client address: no user id, no forwarded
chain. -/
def clientOnlyRequest : Request := { client_host := some "203.0.113.7" }

/-- A request carrying an authenticated user id and a forwarded chain. -/
def userIdRequest : Request :=
  { x_user_id := some "u42", x_forwarded_for := some "9.9.9.9" }

/-! ### Helper lemmas shared across claims -/

theorem pyTruthy_eq_true (x : Option String) :
    pyTruthy x = true ↔ ∃ s, x = some s ∧ s ≠ "" := by
  cases x <;> simp [pyTruthy]

theorem pyTruthy_eq_false (x : Option String) :
    pyTruthy x = false ↔ x = none ∨ x = some "" := by
  cases x with
  | none => simp [pyTruthy]
  | some s => simp [pyTruthy]

theorem require_role_ok_iff (user : AuthUser) (m : String) :
    require_role m user = .ok user ↔
      pyTruthy user.claims.tenant_role = true ∧
      roleRank m ≤ rankOpt user.claims.tenant_role := by
  cases ht : pyTruthy user.claims.tenant_role with
  | false => simp [require_role, ht]
  | true =>
    rcases (pyTruthy_eq_true _).1 ht with ⟨s, hr, hs⟩
    rw [hr] at ht
    simp only [require_role, hr, ht, rankOpt, Option.map_some', Option.getD_some,
      Bool.not_true, Bool.false_eq_true, if_false, true_and]
    split_ifs with hlt
    · constructor
      · intro hc
        exact absurd hc (by simp)
      · intro hle
        exact absurd hle (by omega)
    · constructor
      · intro _
        omega
      · intro _
        rfl

theorem require_role_no_role (user : AuthUser) (m : String)
    (h : pyTruthy user.claims.tenant_role = false) :
    require_role m user = .error (.noTenantRole m) := by
  simp [require_role, h]

theorem require_role_insufficient (user : AuthUser) (m s : String)
    (hr : user.claims.tenant_role = some s) (hs : s ≠ "")
    (hlt : roleRank s < roleRank m) :
    require_role m user = .error (.insufficientRole m s) := by
  have ht : pyTruthy (some s) = true := by simp [pyTruthy, hs]
  simp only [require_role, hr, ht, Option.getD_some, Bool.not_true, Bool.false_eq_true,
    if_false]
  rw [if_pos hlt]

theorem require_tenant_ok_iff (user : AuthUser) :
    require_tenant user = .ok user ↔ pyTruthy user.claims.tenant_id = true := by
  unfold require_tenant
  cases hb : pyTruthy user.claims.tenant_id <;> simp

theorem require_tenant_error_iff (user : AuthUser) :
    require_tenant user = .error .tenantRequired ↔
      pyTruthy user.claims.tenant_id = false := by
  unfold require_tenant
  cases hb : pyTruthy user.claims.tenant_id <;> simp

theorem require_verified_email_ok_iff (user : AuthUser) :
    require_verified_email user = .ok user ↔ user.email_verified = true := by
  unfold require_verified_email
  cases hb : user.email_verified <;> simp

theorem require_platform_admin_ok_iff (user : AuthUser) :
    require_platform_admin user = .ok user ↔ user.claims.is_platform_admin = true := by
  unfold require_platform_admin
  cases hb : user.claims.is_platform_admin <;> simp

/-! ### Claims C1, C2, C9 -/

/-- Claim C1: with the wildcard `"*"` in the permission set,
`require_permission` succeeds for every permission argument and
`require_any_permission` succeeds for every list (the empty one included),
while `require_role`, `require_tenant`, `require_verified_email` and
`require_platform_admin` each still succeed exactly on their own condition —
a condition that never mentions the permission set, so the wildcard never
satisfies a role, tenant, email-verification, or platform-admin check. -/
theorem C1_wildcard (user : AuthUser) (h : "*" ∈ user.claims.permissions) :
    (∀ p, require_permission p user = .ok user) ∧
    (∀ ps, require_any_permission ps user = .ok user) ∧
    (∀ m, require_role m user = .ok user ↔
        pyTruthy user.claims.tenant_role = true ∧
        roleRank m ≤ rankOpt user.claims.tenant_role) ∧
    (require_tenant user = .ok user ↔ pyTruthy user.claims.tenant_id = true) ∧
    (require_verified_email user = .ok user ↔ user.email_verified = true) ∧
    (require_platform_admin user = .ok user ↔ user.claims.is_platform_admin = true) := by
  refine ⟨?_, ?_, ?_, require_tenant_ok_iff user, require_verified_email_ok_iff user,
    require_platform_admin_ok_iff user⟩
  · intro p
    simp [require_permission, h]
  · intro ps
    simp [require_any_permission, h]
  · intro m
    exact require_role_ok_iff user m

theorem C1_wildcard_witness :
    require_permission "deployments.write" wildcardUser = .ok wildcardUser ∧
    require_any_permission [] wildcardUser = .ok wildcardUser ∧
    (require_role "admin" wildcardUser = .ok wildcardUser ↔
        pyTruthy wildcardUser.claims.tenant_role = true ∧
        roleRank "admin" ≤ rankOpt wildcardUser.claims.tenant_role) ∧
    require_tenant wildcardUser = .error .tenantRequired := by
  have h := C1_wildcard wildcardUser (by decide)
  exact ⟨h.1 "deployments.write", h.2.1 [], h.2.2.1 "admin", by decide⟩

/-- Claim C2 counterexample: with an absent `tenant_role` and a `min_role`
outside the role vocabulary (both rank 0), the claimed "succeeds iff
`rank(tenant_role) ≥ rank(min_role)`" is violated: the rank comparison
`0 ≥ 0` holds, yet `require_role` fails with the "No tenant role" error. -/
theorem C2_counterexample :
    roleRank "guest" ≤ rankOpt noRoleUser.claims.tenant_role ∧
    require_role "guest" noRoleUser = .error (.noTenantRole "guest") ∧
    require_role "guest" noRoleUser ≠ .ok noRoleUser := by decide

/-- Claim C2 (amended): `require_role` succeeds iff the tenant role is present
and non-empty AND ranks at least `min_role` (owner=100, admin=75,
developer=50, viewer=25, unknown roles 0); an absent (or empty) tenant role
always fails with the "No tenant role" variant, even when `rank(min_role)` is
0; the `"admin"` examples hold exactly as the claim lists them. -/
theorem C2_require_role (user : AuthUser) (min_role : String) :
    (require_role min_role user = .ok user ↔
        pyTruthy user.claims.tenant_role = true ∧
        roleRank min_role ≤ rankOpt user.claims.tenant_role) ∧
    (pyTruthy user.claims.tenant_role = false →
        require_role min_role user = .error (.noTenantRole min_role)) ∧
    ((user.claims.tenant_role = some "owner" ∨ user.claims.tenant_role = some "admin") →
        require_role "admin" user = .ok user) ∧
    ((user.claims.tenant_role = some "developer" ∨ user.claims.tenant_role = some "viewer") →
        require_role "admin" user =
          .error (.insufficientRole "admin" (user.claims.tenant_role.getD ""))) ∧
    (user.claims.tenant_role = none →
        require_role "admin" user = .error (.noTenantRole "admin")) := by
  refine ⟨require_role_ok_iff user min_role, require_role_no_role user min_role, ?_, ?_, ?_⟩
  · rintro (hr | hr) <;>
    · exact (require_role_ok_iff user "admin").2 ⟨by rw [hr]; decide, by rw [hr]; decide⟩
  · rintro (hr | hr) <;>
    · rw [hr, Option.getD_some]
      exact require_role_insufficient user _ _ hr (by decide) (by decide)
  · intro hr
    exact require_role_no_role user "admin" (by rw [hr]; rfl)

theorem C2_require_role_witness :
    require_role "admin" ownerUser = .ok ownerUser ∧
    require_role "owner" ownerUser = .ok ownerUser := by
  have h := C2_require_role ownerUser "owner"
  exact ⟨(C2_require_role ownerUser "admin").2.2.1 (Or.inl rfl),
    h.1.2 ⟨by decide, by decide⟩⟩

/-- Claim C9 counterexample: a present-but-empty `tenant_id` is not absent,
yet `require_tenant` (Python truthiness of `""`) rejects the context with
`TENANT_REQUIRED`, so "succeeds in every other case" fails. -/
theorem C9_counterexample :
    emptyTenantUser.claims.tenant_id ≠ none ∧
    require_tenant emptyTenantUser = .error .tenantRequired := by decide

/-- Claim C9 (amended): `require_tenant` returns the context unchanged exactly
when `tenant_id` is present and non-empty, and fails with the
`TENANT_REQUIRED` error (HTTP 403, code AUTH_302) exactly when `tenant_id`
is absent or the empty string. -/
theorem C9_require_tenant (user : AuthUser) :
    (require_tenant user = .ok user ↔ ∃ s, user.claims.tenant_id = some s ∧ s ≠ "") ∧
    (require_tenant user = .error .tenantRequired ↔
        (user.claims.tenant_id = none ∨ user.claims.tenant_id = some "")) ∧
    AuthError.tenantRequired.code = some "AUTH_302" ∧
    AuthError.tenantRequired.status = 403 := by
  refine ⟨?_, ?_, rfl, rfl⟩
  · rw [require_tenant_ok_iff]
    exact pyTruthy_eq_true _
  · rw [require_tenant_error_iff]
    exact pyTruthy_eq_false _

/-! ### Helper lemmas for token decoding and permission checks -/

theorem jwtDecode_expired_iff (token : JwtToken) (secret : String) (now : Int) :
    jwtDecode token secret now = .error .expiredSignature ↔ token.isExpired now = true := by
  cases he : token.isExpired now with
  | true => simp [jwtDecode, he]
  | false =>
    simp only [jwtDecode, he, Bool.false_eq_true, if_false]
    constructor
    · intro hc
      exfalso
      revert hc
      split_ifs <;> simp
    · intro hc
      simp at hc

theorem jwtDecode_invalid (token : JwtToken) (secret : String) (now : Int)
    (he : token.isExpired now = false)
    (h : token.wellFormed = false ∨ token.alg ≠ "HS256" ∨ token.signedWith ≠ secret ∨
        token.aud ≠ some "authenticated") :
    ∃ m, jwtDecode token secret now = .error (.invalidToken m) := by
  simp only [jwtDecode, he, Bool.false_eq_true, if_false]
  split_ifs with h1 h2 h3 h4
  · exact ⟨_, rfl⟩
  · exact ⟨_, rfl⟩
  · exact ⟨_, rfl⟩
  · exact ⟨_, rfl⟩
  · exfalso
    rcases h with h | h | h | h
    · exact h1 (by simp [h])
    · exact h2 h
    · exact h3 h
    · exact h4 h

theorem jwtDecode_valid (token : JwtToken) (secret : String) (now : Int)
    (he : token.isExpired now = false) (h1 : token.wellFormed = true)
    (h2 : token.alg = "HS256") (h3 : token.signedWith = secret)
    (h4 : token.aud = some "authenticated") :
    jwtDecode token secret now = .ok token.payload := by
  simp [jwtDecode, he, h1, h2, h3, h4]

theorem jwtDecode_ok_payload (token : JwtToken) (secret : String) (now : Int)
    (p : TokenPayload) (h : jwtDecode token secret now = .ok p) : p = token.payload := by
  unfold jwtDecode at h
  split_ifs at h <;> simp_all

theorem decode_jwt_eq (secret : String) (hs : secret ≠ "") (token : JwtToken) (now : Int) :
    decode_jwt secret token now =
      match jwtDecode token secret now with
      | .ok payload => .ok payload
      | .error .expiredSignature => .error .tokenExpired
      | .error (.invalidToken msg) => .error (.tokenInvalid ("Invalid token: " ++ msg)) := by
  simp [decode_jwt, hs]

theorem require_permission_ok_iff (p : String) (user : AuthUser) :
    require_permission p user = .ok user ↔
      ("*" ∈ user.claims.permissions ∨ p ∈ user.claims.permissions) := by
  by_cases h1 : "*" ∈ user.claims.permissions
  · simp [require_permission, h1]
  · by_cases h2 : p ∈ user.claims.permissions
    · simp [require_permission, h1, h2]
    · simp [require_permission, h1, h2]

theorem require_any_permission_ok_iff (ps : List String) (user : AuthUser) :
    require_any_permission ps user = .ok user ↔
      ("*" ∈ user.claims.permissions ∨ ∃ p ∈ ps, p ∈ user.claims.permissions) := by
  by_cases h1 : "*" ∈ user.claims.permissions
  · simp [require_any_permission, h1]
  · cases ha : ps.any (fun p => decide (p ∈ user.claims.permissions)) with
    | true =>
      have hyes : ∃ p ∈ ps, p ∈ user.claims.permissions := by
        simpa [List.any_eq_true] using ha
      simp only [require_any_permission, if_neg h1, ha, Bool.not_true, Bool.false_eq_true,
        if_false]
      simp [h1, hyes]
    | false =>
      have hno : ∀ p ∈ ps, p ∉ user.claims.permissions := by
        simpa [List.any_eq_false] using ha
      simp only [require_any_permission, if_neg h1, ha, Bool.not_false, if_true]
      constructor
      · intro hc
        exact absurd hc (by simp)
      · rintro (hc | ⟨p, hp, hmem⟩)
        · exact absurd hc h1
        · exact absurd hmem (hno p hp)

/-! ### Claims C4, C7, C8, C10 -/

/-- Claim C4: with no configured secret, `decode_jwt` fails with the
configuration error carrying HTTP 500 (never 401/403) for every token; with
a secret it fails with `TOKEN_EXPIRED` exactly when the token's expiry claim
is in the past, fails with `TOKEN_INVALID` for every other validation
failure (malformed structure, wrong algorithm, bad signature, or audience
different from the literal `"authenticated"`), and each invocation yields
exactly one of: the config error, `TOKEN_EXPIRED`, `TOKEN_INVALID`, or the
decoded payload. -/
theorem C4_decode_jwt (secret : String) (token : JwtToken) (now : Int) :
    (secret = "" → decode_jwt secret token now = .error .configError) ∧
    AuthError.configError.status = 500 ∧
    AuthError.configError.status ≠ 401 ∧
    AuthError.configError.status ≠ 403 ∧
    (secret ≠ "" →
        (decode_jwt secret token now = .error .tokenExpired ↔ token.isExpired now = true)) ∧
    (secret ≠ "" → token.isExpired now = false →
        ((token.wellFormed = false ∨ token.alg ≠ "HS256" ∨ token.signedWith ≠ secret ∨
            token.aud ≠ some "authenticated") →
          ∃ m, decode_jwt secret token now = .error (.tokenInvalid m)) ∧
        (token.wellFormed = true → token.alg = "HS256" → token.signedWith = secret →
            token.aud = some "authenticated" →
          decode_jwt secret token now = .ok token.payload)) ∧
    (decode_jwt secret token now = .error .configError ∨
     decode_jwt secret token now = .error .tokenExpired ∨
     (∃ m, decode_jwt secret token now = .error (.tokenInvalid m)) ∨
     decode_jwt secret token now = .ok token.payload) := by
  by_cases hs : secret = ""
  · subst hs
    exact ⟨fun _ => by simp [decode_jwt], rfl, by decide, by decide,
      fun h => absurd rfl h, fun h => absurd rfl h, Or.inl (by simp [decode_jwt])⟩
  · refine ⟨fun h => absurd h hs, rfl, by decide, by decide, fun _ => ?_,
      fun _ he => ⟨?_, ?_⟩, ?_⟩
    · rw [decode_jwt_eq secret hs token now, ← jwtDecode_expired_iff token secret now]
      cases hj : jwtDecode token secret now with
      | ok p => simp
      | error e => cases e <;> simp
    · intro h
      rcases jwtDecode_invalid token secret now he h with ⟨m, hm⟩
      exact ⟨"Invalid token: " ++ m, by rw [decode_jwt_eq secret hs token now, hm]⟩
    · intro h1 h2 h3 h4
      rw [decode_jwt_eq secret hs token now, jwtDecode_valid token secret now he h1 h2 h3 h4]
    · rw [decode_jwt_eq secret hs token now]
      cases hj : jwtDecode token secret now with
      | ok p =>
        have hp := jwtDecode_ok_payload token secret now p hj
        right
        right
        right
        simp [hp]
      | error e =>
        cases e with
        | expiredSignature =>
          right
          left
          rfl
        | invalidToken m =>
          right
          right
          left
          exact ⟨_, rfl⟩

theorem C4_decode_jwt_witness :
    decode_jwt "" expiredToken 50 = .error .configError ∧
    (decode_jwt "s3cret" expiredToken 200 = .error .tokenExpired ↔
        expiredToken.isExpired 200 = true) ∧
    decode_jwt "s3cret" expiredToken 50 = .ok expiredToken.payload := by
  refine ⟨(C4_decode_jwt "" expiredToken 50).1 rfl,
    (C4_decode_jwt "s3cret" expiredToken 200).2.2.2.2.1 (by decide), ?_⟩
  exact ((C4_decode_jwt "s3cret" expiredToken 50).2.2.2.2.2.1 (by decide) (by decide)).2
    rfl rfl rfl rfl

/-- Claim C7 counterexample: a payload carrying no custom namespace but a
top-level `"email_verified": true` claim extracts to a context with
`email_verified = true`, not `false` — that flag is a top-level claim,
independent of the custom namespace. -/
theorem C7_counterexample :
    ({ email_verified := some true } : TokenPayload).olympus = none ∧
    (extract_user { email_verified := some true }).email_verified = true := by decide

/-- Claim C7 (amended): extraction from a verified payload with no custom
namespace yields absent `tenant_id`, `tenant_role`, `tenant_slug` and
`plan_tier`, an empty permission list and `is_platform_admin = false`;
`email_verified`, however, is read from the top-level claim of that name and
is false only when that claim is absent; an absent subject claim yields the
empty-string identifier rather than failing. -/
theorem C7_extract_defaults (p q : TokenPayload) (hp : p.olympus = none)
    (hq : q.sub = none) :
    (extract_user p).claims.tenant_id = none ∧
    (extract_user p).claims.tenant_role = none ∧
    (extract_user p).claims.tenant_slug = none ∧
    (extract_user p).claims.plan_tier = none ∧
    (extract_user p).claims.permissions = [] ∧
    (extract_user p).claims.is_platform_admin = false ∧
    (extract_user p).email_verified = p.email_verified.getD false ∧
    (extract_user q).id = "" := by
  refine ⟨?_, ?_, ?_, ?_, ?_, ?_, ?_, ?_⟩ <;> simp [extract_user, hp, hq]

theorem C7_extract_defaults_witness :
    (extract_user { sub := some "u7", email_verified := some true }).claims.permissions = [] ∧
    (extract_user { sub := some "u7", email_verified := some true }).email_verified = true ∧
    (extract_user { email := some "x@y.z" }).id = "" := by
  have h := C7_extract_defaults { sub := some "u7", email_verified := some true }
    { email := some "x@y.z" } rfl rfl
  exact ⟨h.2.2.2.2.1, h.2.2.2.2.2.2.1, h.2.2.2.2.2.2.2⟩

/-- Claim C8 counterexample: the extraction keeps permissions as a pydantic
LIST, not a set — `["a","b"]` and `["b","a"]` are equal as sets yet extract
to different contexts. -/
theorem C8_counterexample :
    (["a", "b"] : List String).toFinset = (["b", "a"] : List String).toFinset ∧
    extract_user (permPayload ["a", "b"]) ≠ extract_user (permPayload ["b", "a"]) := by
  constructor
  · decide
  · decide

/-- Claim C8 (amended): the extracted context stores the token's permission
list as a list (order and duplicates preserved), so set-equal permission
lists need not yield equal contexts; but every permission check's outcome
depends only on the SET of permissions: on contexts whose permission lists
are equal as sets, `require_permission` and `require_any_permission` agree
for every argument. -/
theorem C8_permission_checks (u₁ u₂ : AuthUser)
    (h : u₁.claims.permissions.toFinset = u₂.claims.permissions.toFinset)
    (p : String) (ps : List String) :
    (require_permission p u₁ = .ok u₁ ↔ require_permission p u₂ = .ok u₂) ∧
    (require_any_permission ps u₁ = .ok u₁ ↔ require_any_permission ps u₂ = .ok u₂) := by
  have hmem : ∀ x, x ∈ u₁.claims.permissions ↔ x ∈ u₂.claims.permissions := by
    intro x
    rw [← List.mem_toFinset, h, List.mem_toFinset]
  constructor
  · rw [require_permission_ok_iff, require_permission_ok_iff, hmem "*", hmem p]
  · rw [require_any_permission_ok_iff, require_any_permission_ok_iff, hmem "*"]
    constructor
    · rintro (hw | ⟨x, hx, hm⟩)
      · exact Or.inl hw
      · exact Or.inr ⟨x, hx, (hmem x).1 hm⟩
    · rintro (hw | ⟨x, hx, hm⟩)
      · exact Or.inl hw
      · exact Or.inr ⟨x, hx, (hmem x).2 hm⟩

theorem C8_permission_checks_witness :
    (require_permission "a" permUser1 = .ok permUser1 ↔
        require_permission "a" permUser2 = .ok permUser2) ∧
    (require_any_permission ["z", "b"] permUser1 = .ok permUser1 ↔
        require_any_permission ["z", "b"] permUser2 = .ok permUser2) :=
  C8_permission_checks permUser1 permUser2 (by decide) "a" ["z", "b"]

/-- Claim C10: `get_optional_user` never raises — no credentials yields
`None`; when `get_current_user` fails with any typed error (missing secret,
expired token, invalid token) it yields `None`; and when `get_current_user`
succeeds it returns exactly the same user. -/
theorem C10_get_optional_user (secret : String) (now : Int) (cred : Option JwtToken) :
    (cred = none → get_optional_user secret now cred = none) ∧
    (∀ token, cred = some token →
      (∀ e, get_current_user secret now token = .error e →
          get_optional_user secret now cred = none) ∧
      (∀ u, get_current_user secret now token = .ok u →
          get_optional_user secret now cred = some u)) := by
  constructor
  · intro h
    rw [h]
    rfl
  · intro token hc
    constructor
    · intro e he
      simp [get_optional_user, hc, he]
    · intro u hu
      simp [get_optional_user, hc, hu]

theorem C10_get_optional_user_witness :
    get_optional_user "s3cret" 0 none = none ∧
    get_optional_user "" 0 (some goodToken) = none ∧
    get_optional_user "s3cret" 0 (some goodToken) = some (extract_user {}) := by
  refine ⟨(C10_get_optional_user "s3cret" 0 none).1 rfl, ?_, ?_⟩
  · exact ((C10_get_optional_user "" 0 (some goodToken)).2 goodToken rfl).1
      .configError (by decide)
  · exact ((C10_get_optional_user "s3cret" 0 (some goodToken)).2 goodToken rfl).2
      (extract_user {}) (by decide)

/-! ### Helper lemmas for the rate limiter -/

theorem check_denied (requests : RLState) (request : Request) (window_ms : ℚ)
    (max_requests : ℤ) (pre : String) (now : ℚ)
    (h : ((cleanupList (requests (RateLimiter.get_key request pre)) window_ms now).length : ℤ) ≥
        max_requests) :
    RateLimiter.check requests request window_ms max_requests pre now =
      ((false, 0, now + window_ms / 1000),
       RateLimiter.cleanup requests (RateLimiter.get_key request pre) window_ms now) := by
  simp only [RateLimiter.check, RateLimiter.cleanup, Function.update_same]
  split_ifs with hc
  all_goals first
  | rfl
  | exact absurd hc (by omega)
  | exact absurd h (by omega)

theorem check_admitted (requests : RLState) (request : Request) (window_ms : ℚ)
    (max_requests : ℤ) (pre : String) (now : ℚ)
    (h : ((cleanupList (requests (RateLimiter.get_key request pre)) window_ms now).length : ℤ) <
        max_requests) :
    RateLimiter.check requests request window_ms max_requests pre now =
      ((true,
        max 0 (max_requests -
          ((cleanupList (requests (RateLimiter.get_key request pre)) window_ms now).length : ℤ)
          - 1),
        now + window_ms / 1000),
       Function.update
         (RateLimiter.cleanup requests (RateLimiter.get_key request pre) window_ms now)
         (RateLimiter.get_key request pre)
         (cleanupList (requests (RateLimiter.get_key request pre)) window_ms now ++ [now])) := by
  simp only [RateLimiter.check, RateLimiter.cleanup, Function.update_same]
  split_ifs with hc
  all_goals first
  | rfl
  | exact absurd hc (by omega)
  | exact absurd h (by omega)

theorem get_key_eq (request : Request) (pre : String) :
    RateLimiter.get_key request pre = pre ++ keyTail request := by
  simp only [RateLimiter.get_key, keyTail]
  split_ifs with h1 h2
  · rw [String.append_assoc]
  · rw [String.append_assoc]
  · rw [String.append_assoc]

theorem string_append_right_cancel {s t u : String} (h : s ++ u = t ++ u) : s = t := by
  have hd := congrArg String.data h
  simp [String.data_append] at hd
  exact String.ext hd

/-! ### Claims C3 and C6 -/

/-- Claim C3: `check` first prunes the key's recorded timestamps outside the
trailing window; at or above the limit it denies with remaining 0 and
`reset_at = now + window/1000` without recording the attempt (the key's
record stays the pruned list); below the limit it appends `now` and admits
with `remaining = max 0 (max_requests − count − 1)`.  Consequently with
window 60000 ms and max 5, six immediate checks on a fresh key yield
remaining 4,3,2,1,0 admitted and then a denial with remaining 0, every
returned reset giving a retry delay `reset_at − now` of at most 60 s. -/
theorem C3_rate_limiter_check (requests : RLState) (request : Request) (window_ms : ℚ)
    (max_requests : ℤ) (pre : String) (now : ℚ) :
    (((cleanupList (requests (RateLimiter.get_key request pre)) window_ms now).length : ℤ) ≥
        max_requests →
      RateLimiter.check requests request window_ms max_requests pre now =
        ((false, 0, now + window_ms / 1000),
         RateLimiter.cleanup requests (RateLimiter.get_key request pre) window_ms now)) ∧
    (((cleanupList (requests (RateLimiter.get_key request pre)) window_ms now).length : ℤ) <
        max_requests →
      RateLimiter.check requests request window_ms max_requests pre now =
        ((true,
          max 0 (max_requests -
            ((cleanupList (requests (RateLimiter.get_key request pre)) window_ms now).length : ℤ)
            - 1),
          now + window_ms / 1000),
         Function.update
           (RateLimiter.cleanup requests (RateLimiter.get_key request pre) window_ms now)
           (RateLimiter.get_key request pre)
           (cleanupList (requests (RateLimiter.get_key request pre)) window_ms now ++ [now]))) ∧
    (checkSeq (fun _ => ([] : List ℚ)) request 60000 5 pre [now, now, now, now, now, now] =
      [(true, 4, now + 60), (true, 3, now + 60), (true, 2, now + 60), (true, 1, now + 60),
       (true, 0, now + 60), (false, 0, now + 60)]) ∧
    (∀ r ∈ checkSeq (fun _ => ([] : List ℚ)) request 60000 5 pre [now, now, now, now, now, now],
      r.2.2 - now ≤ 60) := by
  have h60 : (60000 : ℚ) / 1000 = 60 := by norm_num
  have hfil : ∀ L : List ℚ, (∀ t ∈ L, t = now) → cleanupList L 60000 now = L := by
    intro L hL
    unfold cleanupList
    rw [List.filter_eq_self]
    intro a ha
    rw [hL a ha, decide_eq_true_eq, h60]
    linarith
  have hstep : ∀ (st : RLState) (L : List ℚ), (∀ t ∈ L, t = now) → ((L.length : ℤ) < 5) →
      st (RateLimiter.get_key request pre) = L →
      RateLimiter.check st request 60000 5 pre now =
        ((true, 4 - (L.length : ℤ), now + 60),
         Function.update (RateLimiter.cleanup st (RateLimiter.get_key request pre) 60000 now)
           (RateLimiter.get_key request pre) (L ++ [now])) ∧
      (∀ t ∈ L ++ [now], t = now) ∧
      Function.update (RateLimiter.cleanup st (RateLimiter.get_key request pre) 60000 now)
          (RateLimiter.get_key request pre) (L ++ [now])
          (RateLimiter.get_key request pre) = L ++ [now] := by
    intro st L hL hlen hst
    have hcl : cleanupList (st (RateLimiter.get_key request pre)) 60000 now = L := by
      rw [hst]
      exact hfil L hL
    have hadm := check_admitted st request 60000 5 pre now (by rw [hcl]; exact hlen)
    rw [hcl, h60] at hadm
    have hmax : max 0 (5 - (L.length : ℤ) - 1) = 4 - (L.length : ℤ) := by
      rw [max_eq_right (by omega)]
      ring
    rw [hmax] at hadm
    refine ⟨hadm, ?_, Function.update_same _ _ _⟩
    intro t ht
    rcases List.mem_append.1 ht with h | h
    · exact hL t h
    · simpa using h
  have hdeny : ∀ (st : RLState) (L : List ℚ), (∀ t ∈ L, t = now) → ((L.length : ℤ) ≥ 5) →
      st (RateLimiter.get_key request pre) = L →
      RateLimiter.check st request 60000 5 pre now =
        ((false, 0, now + 60),
         RateLimiter.cleanup st (RateLimiter.get_key request pre) 60000 now) := by
    intro st L hL hlen hst
    have hcl : cleanupList (st (RateLimiter.get_key request pre)) 60000 now = L := by
      rw [hst]
      exact hfil L hL
    have hden := check_denied st request 60000 5 pre now (by rw [hcl]; exact hlen)
    rw [h60] at hden
    exact hden
  obtain ⟨hc1, hm1, hk1⟩ := hstep (fun _ => ([] : List ℚ)) [] (by simp) (by simp) rfl
  obtain ⟨hc2, hm2, hk2⟩ := hstep _ ([] ++ [now]) hm1 (by simp) hk1
  obtain ⟨hc3, hm3, hk3⟩ := hstep _ (([] ++ [now]) ++ [now]) hm2 (by simp) hk2
  obtain ⟨hc4, hm4, hk4⟩ := hstep _ ((([] ++ [now]) ++ [now]) ++ [now]) hm3 (by simp) hk3
  obtain ⟨hc5, hm5, hk5⟩ :=
    hstep _ (((([] ++ [now]) ++ [now]) ++ [now]) ++ [now]) hm4 (by simp) hk4
  have hc6 := hdeny _ ((((([] ++ [now]) ++ [now]) ++ [now]) ++ [now]) ++ [now]) hm5
    (by simp) hk5
  have hlist : checkSeq (fun _ => ([] : List ℚ)) request 60000 5 pre
      [now, now, now, now, now, now] =
      [(true, 4, now + 60), (true, 3, now + 60), (true, 2, now + 60), (true, 1, now + 60),
       (true, 0, now + 60), (false, 0, now + 60)] := by
    simp only [checkSeq, hc1, hc2, hc3, hc4, hc5, hc6]
    norm_num
  refine ⟨check_denied requests request window_ms max_requests pre now,
    check_admitted requests request window_ms max_requests pre now, hlist, ?_⟩
  intro r hr
  rw [hlist] at hr
  simp only [List.mem_cons, List.not_mem_nil, or_false] at hr
  rcases hr with h | h | h | h | h | h <;>
  · subst h
    simp

theorem C3_rate_limiter_check_witness :
    RateLimiter.check (fun _ => ([] : List ℚ)) {} 60000 5 "api" 0 =
      ((true,
        max 0 (5 -
          ((cleanupList ((fun _ => ([] : List ℚ)) (RateLimiter.get_key {} "api")) 60000 0).length
            : ℤ) - 1),
        0 + 60000 / 1000),
       Function.update
         (RateLimiter.cleanup (fun _ => ([] : List ℚ)) (RateLimiter.get_key {} "api") 60000 0)
         (RateLimiter.get_key {} "api")
         (cleanupList ((fun _ => ([] : List ℚ)) (RateLimiter.get_key {} "api")) 60000 0
           ++ [0])) ∧
    checkSeq (fun _ => ([] : List ℚ)) {} 60000 5 "api" [0, 0, 0, 0, 0, 0] =
      [(true, 4, 0 + 60), (true, 3, 0 + 60), (true, 2, 0 + 60), (true, 1, 0 + 60),
       (true, 0, 0 + 60), (false, 0, 0 + 60)] := by
  have h := C3_rate_limiter_check (fun _ => ([] : List ℚ)) {} 60000 5 "api" 0
  exact ⟨h.2.1 (by norm_num [cleanupList]), h.2.2.1⟩

/-- Claim C6 counterexample: with no `x-user-id` and no `x-forwarded-for`
header the source falls back to the DIRECT CLIENT ADDRESS, not to the
literal "unknown" — the claim's three-step derivation omits that step. -/
theorem C6_counterexample :
    RateLimiter.get_key clientOnlyRequest "api" = "api:ip:203.0.113.7" ∧
    RateLimiter.get_key clientOnlyRequest "api" ≠ "api:ip:unknown" := by decide

/-- Claim C6 (amended): the rate-limit key joins the scope with an identity
derived in this order — the `x-user-id` header when present (truthy); else
the left-most address of the `x-forwarded-for` chain (first comma field,
stripped); else the direct client address when the request carries one; else
the literal "unknown".  Two requests with the same identity but different
scopes always map to distinct keys. -/
theorem C6_get_key (request : Request) (p₁ p₂ : String) :
    (pyTruthy request.x_user_id = true →
      RateLimiter.get_key request p₁ = p₁ ++ ":user:" ++ request.x_user_id.getD "") ∧
    (pyTruthy request.x_user_id = false → pyTruthy request.x_forwarded_for = true →
      RateLimiter.get_key request p₁ =
        p₁ ++ ":ip:" ++ pyStrip (splitFirstComma (request.x_forwarded_for.getD ""))) ∧
    (pyTruthy request.x_user_id = false → pyTruthy request.x_forwarded_for = false →
      ∀ h, request.client_host = some h →
        RateLimiter.get_key request p₁ = p₁ ++ ":ip:" ++ h) ∧
    (pyTruthy request.x_user_id = false → pyTruthy request.x_forwarded_for = false →
      request.client_host = none →
        RateLimiter.get_key request p₁ = p₁ ++ ":ip:" ++ "unknown") ∧
    (p₁ ≠ p₂ → RateLimiter.get_key request p₁ ≠ RateLimiter.get_key request p₂) := by
  refine ⟨?_, ?_, ?_, ?_, ?_⟩
  · intro h
    simp [RateLimiter.get_key, h]
  · intro h hf
    simp [RateLimiter.get_key, h, hf]
  · intro h hf c hc
    simp [RateLimiter.get_key, h, hf, hc]
  · intro h hf hc
    simp [RateLimiter.get_key, h, hf, hc]
  · intro hne hk
    rw [get_key_eq, get_key_eq] at hk
    exact hne (string_append_right_cancel hk)

theorem C6_get_key_witness :
    RateLimiter.get_key userIdRequest "api" = "api" ++ ":user:" ++ "u42" ∧
    RateLimiter.get_key clientOnlyRequest "strict" = "strict" ++ ":ip:" ++ "203.0.113.7" ∧
    RateLimiter.get_key userIdRequest "api" ≠ RateLimiter.get_key userIdRequest "auth" := by
  refine ⟨(C6_get_key userIdRequest "api" "auth").1 (by decide), ?_, ?_⟩
  · exact ((C6_get_key clientOnlyRequest "strict" "x").2.2.1 (by decide) (by decide))
      "203.0.113.7" rfl
  · exact (C6_get_key userIdRequest "api" "auth").2.2.2.2 (by decide)

end Olympus
